import Mathlib

/-!
Verification development for the AI Travel Planner (src/a.py).

The program is a single Streamlit script.  We shallowly embed the parts that
the specification talks about:

* the three tool adapters `tavily_search`, `get_weather`,
  `get_hotel_recommendations` (src/a.py lines 40-76).  Each adapter performs
  a blocking network call through a client library; we model the external
  service as a function from the request string to an abstract outcome which
  is either structured response data or a raised exception (network error,
  timeout, JSON decode failure).  Python exceptions crossing the adapter
  boundary are modelled by the `Except.error` constructor; a returned string
  is `Except.ok`.
* the agent executor configuration (src/a.py lines 84-90) together with a
  model of the reasoning loop, which itself lives in the langchain library
  and not in this repository.
* the itinerary post-processing and download packaging of the Streamlit UI
  (src/a.py lines 117-184).

Machine strings are Lean `String`s; the JSON number `temp` is modelled by its
textual rendering, since the program only ever formats it into a sentence.
-/

namespace TravelPlanner

/-- Errors that a Python adapter can raise past its boundary, plus the one
explicit `raise ValueError` in `get_weather`.  `exn` stands for any exception
propagating out of the client library call (connection error, timeout, JSON
decode failure); `keyError` is a `KeyError`/`IndexError` when indexing the
decoded response. -/
inductive ToolErr where
  | exn (msg : String)
  | keyError (key : String)
  | valueError (msg : String)
deriving DecidableEq, Repr

/-- One entry of the `results` list of a Tavily search response.  The
`content` field may be absent (`none`); the empty string models a present but
empty content value. -/
structure SearchResult where
  content : Option String
deriving DecidableEq, Repr

/-- Outcome of invoking the Tavily search client: either the decoded
response (its `results` list) or a raised exception. -/
inductive SearchOutcome where
  | ok (results : List SearchResult)
  | exn (msg : String)
deriving DecidableEq, Repr

/-- Python `str.strip` helper: drop leading whitespace characters. -/
def dropWhitespace : List Char → List Char
  | [] => []
  | c :: rest => if c.isWhitespace then dropWhitespace rest else c :: rest

/-- Embedding of Python `str.strip()`: remove leading and trailing
whitespace. -/
def pyStrip (s : String) : String :=
  String.mk ((dropWhitespace ((dropWhitespace s.data).reverse)).reverse)

/-- Embedding of `tavily_search` (src/a.py lines 40-53).  The client call
`tavily_tool.invoke(query)` is the parameter `tavily_tool`; the loop over
`response['results']` appends `content ++ "\n"` for every result whose
`content` key is present and truthy, and the final string is stripped.
There is no try/except in the source: a raised exception propagates. -/
def tavily_search (tavily_tool : String → SearchOutcome) (query : String) :
    Except ToolErr String :=
  match tavily_tool query with
  | .exn m => Except.error (ToolErr.exn m)
  | .ok results =>
    let combined_content := results.foldl
      (fun acc result =>
        match result.content with
        | some c => if c = "" then acc else acc ++ c ++ "\n"
        | none => acc) ""
    Except.ok (pyStrip combined_content)

/-- The `main` object of an OpenWeatherMap response; `temp` may be absent.
The temperature is modelled by its textual rendering. -/
structure MainData where
  temp : Option String
deriving DecidableEq, Repr

/-- One entry of the `weather` array of an OpenWeatherMap response. -/
structure WeatherItem where
  description : Option String
deriving DecidableEq, Repr

/-- Decoded OpenWeatherMap response body; each key may be absent. -/
structure WeatherData where
  main : Option MainData
  weather : Option (List WeatherItem)
deriving DecidableEq, Repr

/-- Outcome of `requests.get(url)` followed by `.json()`: decoded data, or a
raised exception (network error, timeout, JSON decode failure). -/
inductive WeatherOutcome where
  | ok (data : WeatherData)
  | exn (msg : String)
deriving DecidableEq, Repr

/-- The templated OpenWeatherMap request URL (src/a.py line 60). -/
def weather_url (key location : String) : String :=
  "http://api.openweathermap.org/data/2.5/weather?q=" ++ location ++
    "&appid=" ++ key ++ "&units=metric"

/-- Embedding of `get_weather` (src/a.py lines 55-65).  The configured
credential is `open_weather_api_key : Option String` (`none` models an unset
environment variable, `some ""` an empty one; both are falsy in Python).
The guard raises `ValueError` when the key is falsy.  Afterwards,
`data['main']['temp']` and `data['weather'][0]['description']` are read in
that order; a missing key or empty array raises, since the source has no
try/except. -/
def get_weather (open_weather_api_key : Option String)
    (service : String → WeatherOutcome) (location : String) :
    Except ToolErr String :=
  if open_weather_api_key = none ∨ open_weather_api_key = some "" then
    Except.error (ToolErr.valueError "OpenWeather API key is not set.")
  else
    match service (weather_url (open_weather_api_key.getD "") location) with
    | .exn m => Except.error (ToolErr.exn m)
    | .ok data =>
      match data.main with
      | none => Except.error (ToolErr.keyError "main")
      | some mainData =>
        match mainData.temp with
        | none => Except.error (ToolErr.keyError "temp")
        | some temp =>
          match data.weather with
          | none => Except.error (ToolErr.keyError "weather")
          | some ws =>
            match ws with
            | [] => Except.error (ToolErr.keyError "0")
            | w :: _ =>
              match w.description with
              | none => Except.error (ToolErr.keyError "description")
              | some description =>
                Except.ok ("The current temperature in " ++ location ++
                  " is " ++ temp ++ "°C with " ++ description ++ ".")

/-- Embedding of `get_hotel_recommendations` (src/a.py lines 67-76).  The
adapter reuses the search client with the templated query
`"Best hotels in " ++ location` and evaluates
`response['results'][0]['content'] if response['results'] else "No hotel
recommendations found."`.  A raised exception from the client, or a missing
`content` key on the first result, propagates. -/
def get_hotel_recommendations (search_tool : String → SearchOutcome)
    (location : String) : Except ToolErr String :=
  match search_tool ("Best hotels in " ++ location) with
  | .exn m => Except.error (ToolErr.exn m)
  | .ok results =>
    match results with
    | [] => Except.ok "No hotel recommendations found."
    | r :: _ =>
      match r.content with
      | some c => Except.ok c
      | none => Except.error (ToolErr.keyError "content")

/-- Embedding of Python `plan_text.split("Day ")` specialised to the literal
separator `"Day "` (src/a.py line 168): scan left to right, cutting at each
non-overlapping occurrence of the four characters of the marker; `acc` holds
the (reversed) characters of the current piece. -/
def splitDays : List Char → List Char → List (List Char)
  | 'D' :: 'a' :: 'y' :: ' ' :: rest, acc => acc.reverse :: splitDays rest []
  | c :: rest, acc => splitDays rest (c :: acc)
  | [], acc => [acc.reverse]

/-- Number of non-overlapping occurrences of the day marker `"Day "` in a
character list, scanning left to right — exactly the occurrences at which
`splitDays` cuts. -/
def countDays : List Char → Nat
  | 'D' :: 'a' :: 'y' :: ' ' :: rest => countDays rest + 1
  | _ :: rest => countDays rest
  | [] => 0

/-- Embedding of `days = plan_text.split("Day ")` (src/a.py line 168). -/
def days (plan_text : String) : List String :=
  (splitDays plan_text.data []).map String.mk

/-- Embedding of the displayed day sections (src/a.py lines 169-171): the
loop iterates over `days[1:]` and renders `day_plan.strip()` for each. -/
def daySections (plan_text : String) : List String :=
  ((days plan_text).drop 1).map pyStrip

/-- Embedding of the downloaded file content (src/a.py line 176): the plan
text prefixed by a header naming the city. -/
def plan_bytes (city plan_text : String) : String :=
  "AI Travel Plan for " ++ city ++ "\n\n" ++ plan_text

/-- Embedding of the download file name (src/a.py line 182). -/
def download_file_name (city : String) : String :=
  city ++ "_travel_plan.txt"

/-- Embedding of the download MIME type (src/a.py line 183). -/
def download_mime : String := "text/plain"

/-- The four form fields cached in Streamlit session state (src/a.py lines
106-113) plus a field `other` standing for every other piece of session
state, of arbitrary type. -/
structure SessionState (α : Type) where
  city_input : String
  duration_input : Nat
  interests_input : String
  time_input : String
  other : α

/-- Embedding of `clear_inputs` (src/a.py lines 117-121). -/
def clear_inputs {α : Type} (s : SessionState α) : SessionState α :=
  { s with city_input := "", duration_input := 1,
           interests_input := "", time_input := "" }

/-- Modelled from the spec: the Action produced by parsing one reasoning
engine response (spec section 3): invoke a named tool, finish with an
answer, or a parse failure.  The parsing itself is langchain library code
and is not in src/. -/
inductive AgentAction where
  | invoke (tool_name tool_input : String)
  | finish (output : String)
  | parseFailure (raw : String)

/-- Modelled from the spec: the terminal state of one Agent Loop run
(spec section 4.4): Done with the final answer, or Aborted with a reason. -/
inductive LoopResult where
  | done (output : String)
  | aborted (reason : String)
deriving DecidableEq, Repr

/-- Modelled from the spec: the Scratchpad (spec section 3), the ordered
sequence of (action, observation) pairs accumulated during one run. -/
abbrev Scratchpad := List (AgentAction × String)

/-- The bounds configured on the agent executor (src/a.py lines 84-90). -/
structure AgentExecutorConfig where
  max_iterations : Nat
  max_execution_time : Nat

/-- The configuration from src/a.py lines 88-89: `max_iterations=15`,
`max_execution_time=120`. -/
def agent_executor_config : AgentExecutorConfig := ⟨15, 120⟩

/-- Modelled from the spec: one Agent Loop run (spec section 4.4).  The loop
implementation is the langchain `AgentExecutor`, which is not part of this
repository; src/a.py only configures its bounds.  `registry` is the Tool
Registry (lookup by name; unknown names become a fed-back observation),
`engine` produces the parsed next action from the current Scratchpad,
`callTime` the wall-clock duration consumed by one iteration, abstracted as
a natural number of seconds.  `fuel` is the remaining iteration budget;
`elapsed` the wall-clock time consumed so far.  Both bounds are checked
cooperatively between iterations; exceeding either forces Aborted. -/
def runLoop (registry : String → Option (String → String))
    (engine : Scratchpad → AgentAction) (callTime : Scratchpad → Nat) :
    Nat → Nat → Scratchpad → LoopResult
  | 0, _, _ => .aborted "Agent stopped: max iterations reached."
  | fuel + 1, elapsed, pad =>
    if agent_executor_config.max_execution_time < elapsed then
      .aborted "Agent stopped: max execution time reached."
    else
      match engine pad with
      | .finish out => .done out
      | .invoke name inp =>
        let obs :=
          match registry name with
          | some execute => execute inp
          | none => name ++ " is not a valid tool."
        runLoop registry engine callTime fuel (elapsed + callTime pad)
          (pad ++ [(.invoke name inp, obs)])
      | .parseFailure raw =>
        runLoop registry engine callTime fuel (elapsed + callTime pad)
          (pad ++ [(.parseFailure raw, "Invalid response format, retry.")])

/-- Number of reasoning engine calls performed by `runLoop` from a given
state; it mirrors the recursion of `runLoop` exactly. -/
def engineCalls (registry : String → Option (String → String))
    (engine : Scratchpad → AgentAction) (callTime : Scratchpad → Nat) :
    Nat → Nat → Scratchpad → Nat
  | 0, _, _ => 0
  | fuel + 1, elapsed, pad =>
    if agent_executor_config.max_execution_time < elapsed then 0
    else
      match engine pad with
      | .finish _ => 1
      | .invoke name inp =>
        let obs :=
          match registry name with
          | some execute => execute inp
          | none => name ++ " is not a valid tool."
        engineCalls registry engine callTime fuel (elapsed + callTime pad)
          (pad ++ [(.invoke name inp, obs)]) + 1
      | .parseFailure raw =>
        engineCalls registry engine callTime fuel (elapsed + callTime pad)
          (pad ++ [(.parseFailure raw, "Invalid response format, retry.")]) + 1

/-- One full run of the configured agent executor (src/a.py line 161): start
with an empty Scratchpad, zero elapsed time and the configured iteration
budget. -/
def agent_executor (registry : String → Option (String → String))
    (engine : Scratchpad → AgentAction) (callTime : Scratchpad → Nat) :
    LoopResult :=
  runLoop registry engine callTime agent_executor_config.max_iterations 0 []

/-! ### Helper lemmas -/

/-- The split produced by `splitDays` has one more piece than there are
marker occurrences. -/
theorem splitDays_length (l acc : List Char) :
    (splitDays l acc).length = countDays l + 1 := by
  induction l, acc using splitDays.induct with
  | case1 rest acc ih => simp [splitDays, countDays, ih]
  | case2 c rest acc h ih => simp [splitDays, countDays, h, ih]
  | case3 acc => simp [splitDays, countDays]

/-- The number of pieces of `days` is the marker count plus one. -/
theorem days_length (t : String) :
    (days t).length = countDays t.data + 1 := by
  simp [days, splitDays_length]

/-- `runLoop` calls the reasoning engine at most `fuel` times from any
state. -/
theorem engineCalls_le (registry : String → Option (String → String))
    (engine : Scratchpad → AgentAction) (callTime : Scratchpad → Nat) :
    ∀ fuel elapsed pad,
      engineCalls registry engine callTime fuel elapsed pad ≤ fuel := by
  intro fuel
  induction fuel with
  | zero => intro elapsed pad; simp [engineCalls]
  | succ n ih =>
    intro elapsed pad
    simp only [engineCalls]
    split
    · exact Nat.zero_le _
    · split
      · exact Nat.succ_le_succ (Nat.zero_le _)
      · exact Nat.succ_le_succ (ih _ _)
      · exact Nat.succ_le_succ (ih _ _)

/-! ### Claims -/

/-- Claim C3, counterexample.  The final answer
"A relaxing weekend itinerary." contains zero occurrences of the day marker,
yet the post-processor produces zero sections, not one section equal to the
trimmed input: `days[1:]` drops the piece before the first marker. -/
theorem C3_counterexample :
    countDays ("A relaxing weekend itinerary.").data = 0 ∧
    daySections "A relaxing weekend itinerary." = [] ∧
    daySections "A relaxing weekend itinerary."
      ≠ [pyStrip "A relaxing weekend itinerary."] :=
  ⟨by decide, by decide, by decide⟩

/-- Claim C3, amended.  For every final answer text with zero occurrences of
the day marker, the Itinerary Post-Processor produces zero sections: the
split yields a single piece, and the iteration over `days[1:]` drops it, so
the unlabeled text is never shown as a section. -/
theorem C3_no_marker_no_sections (t : String) (h : countDays t.data = 0) :
    daySections t = [] := by
  have hl : (days t).length = 1 := by rw [days_length, h]
  obtain ⟨a, ha⟩ := List.length_eq_one.mp hl
  simp [daySections, ha]

/-- Witness for claim C3 at the concrete no-marker input "hello world". -/
theorem C3_no_marker_no_sections_witness :
    countDays ("hello world").data = 0 ∧ daySections "hello world" = [] :=
  ⟨by decide, C3_no_marker_no_sections "hello world" (by decide)⟩

/-- Claim C8.  For every final answer text containing exactly 3 day markers,
the post-processor yields exactly 3 sections, namely the pieces following
each marker in their original textual order, each stripped of leading and
trailing whitespace. -/
theorem C8_three_markers_three_sections (t : String)
    (h : countDays t.data = 3) :
    (daySections t).length = 3 ∧
    daySections t = ((days t).drop 1).map pyStrip := by
  refine ⟨?_, rfl⟩
  simp [daySections, List.length_map, List.length_drop, days_length, h]

/-- Witness for claim C8 at a concrete three-marker final answer. -/
theorem C8_three_markers_three_sections_witness :
    countDays ("Day 1 beach Day 2 museum Day 3 food").data = 3 ∧
    ((daySections "Day 1 beach Day 2 museum Day 3 food").length = 3 ∧
      daySections "Day 1 beach Day 2 museum Day 3 food"
        = ((days "Day 1 beach Day 2 museum Day 3 food").drop 1).map pyStrip) :=
  ⟨by decide, C8_three_markers_three_sections _ (by decide)⟩

/-- Claim C5, counterexample.  A search whose result set is empty makes
`tavily_search` return the empty string, not an explicit "no results"
string: the accumulating loop never runs and `"".strip()` is empty. -/
theorem C5_counterexample :
    tavily_search (fun _ => SearchOutcome.ok []) "restaurants in Paris"
      = Except.ok "" := rfl

/-- Claim C5, amended.  For every query whose search yields an empty result
set, the search adapter returns the empty string (there is no explicit "no
results" marker in the code). -/
theorem C5_empty_results_empty_string (service : String → SearchOutcome)
    (q : String) (h : service q = SearchOutcome.ok []) :
    tavily_search service q = Except.ok "" := by
  simp only [tavily_search, h]
  rfl

/-- Witness for claim C5 at a concrete empty-result service. -/
theorem C5_empty_results_empty_string_witness :
    (fun _ : String => SearchOutcome.ok []) "anything" = SearchOutcome.ok [] ∧
    tavily_search (fun _ => SearchOutcome.ok []) "anything" = Except.ok "" :=
  ⟨rfl, C5_empty_results_empty_string (fun _ => SearchOutcome.ok []) "anything" rfl⟩

/-- Claim C6.  With no configured weather credential, `get_weather` raises
`ValueError("OpenWeather API key is not set.")` for every location and every
service behaviour: a hard tagged failure (`Except.error` with the
`valueError` tag), not a returned string and not the `exn` tag used for
transient failures. -/
theorem C6_missing_weather_credential (service : String → WeatherOutcome)
    (location : String) :
    get_weather none service location
      = Except.error (ToolErr.valueError "OpenWeather API key is not set.") := rfl

/-- Claim C7.  The hotel adapter's output depends only on the service answer
to the templated query "Best hotels in X"; with a non-empty result list it
returns exactly the first result's `content`, and with an empty result list
it returns the explicit "No hotel recommendations found." string. -/
theorem C7_hotel_adapter (location : String) :
    (∀ search_tool : String → SearchOutcome,
      get_hotel_recommendations search_tool location
        = get_hotel_recommendations
            (fun _ => search_tool ("Best hotels in " ++ location)) location) ∧
    (∀ (c : String) (rs : List SearchResult),
      get_hotel_recommendations
          (fun _ => SearchOutcome.ok ({ content := some c } :: rs)) location
        = Except.ok c) ∧
    get_hotel_recommendations (fun _ => SearchOutcome.ok []) location
      = Except.ok "No hotel recommendations found." :=
  ⟨fun _ => rfl, fun _ _ => rfl, rfl⟩

/-- Claim C1, counterexample.  A transient upstream failure (a connection
timeout inside the search client) propagates out of `tavily_search` as a
raised exception, not as a descriptive string: the adapter body has no
try/except. -/
theorem C1_counterexample :
    tavily_search (fun _ => SearchOutcome.exn "connection timed out")
        "weather in Paris"
      = Except.error (ToolErr.exn "connection timed out") := rfl

/-- Claim C1, amended.  For every input string, a transient upstream failure
during execute propagates as an exception past the boundary of each of the
three adapters (search, weather with a configured key, hotel); only the
top-level handler around the agent run catches it. -/
theorem C1_adapters_propagate_failures (q location msg k : String)
    (hk : k ≠ "") :
    tavily_search (fun _ => SearchOutcome.exn msg) q
        = Except.error (ToolErr.exn msg) ∧
    get_weather (some k) (fun _ => WeatherOutcome.exn msg) location
        = Except.error (ToolErr.exn msg) ∧
    get_hotel_recommendations (fun _ => SearchOutcome.exn msg) location
        = Except.error (ToolErr.exn msg) := by
  refine ⟨rfl, ?_, rfl⟩
  rw [get_weather, if_neg]
  rintro (h | h)
  · exact Option.noConfusion h
  · exact hk (Option.some.inj h)

/-- Witness for claim C1 with a configured key and a timing-out network. -/
theorem C1_adapters_propagate_failures_witness :
    ("apikey" : String) ≠ "" ∧
    (tavily_search (fun _ => SearchOutcome.exn "timeout") "food in Rome"
        = Except.error (ToolErr.exn "timeout") ∧
      get_weather (some "apikey") (fun _ => WeatherOutcome.exn "timeout") "Rome"
        = Except.error (ToolErr.exn "timeout") ∧
      get_hotel_recommendations (fun _ => SearchOutcome.exn "timeout") "Rome"
        = Except.error (ToolErr.exn "timeout")) :=
  ⟨by decide,
    C1_adapters_propagate_failures "food in Rome" "Rome" "timeout" "apikey"
      (by decide)⟩

/-- Claim C4, counterexample.  A weather response for "Paris" that is
missing the temperature field makes `get_weather` raise `KeyError` past its
boundary instead of returning a fallback string: the field accesses are
unguarded. -/
theorem C4_counterexample :
    get_weather (some "apikey")
        (fun _ => WeatherOutcome.ok
          { main := some { temp := none },
            weather := some [{ description := some "clear sky" }] })
        "Paris"
      = Except.error (ToolErr.keyError "temp") := rfl

/-- Claim C4, amended.  For every weather-service response whose `main`
object is missing the `temp` field, `get_weather` (with a configured key)
raises a `KeyError` past the adapter boundary; no fallback string is
produced. -/
theorem C4_missing_temp_raises (k location : String) (hk : k ≠ "")
    (w : Option (List WeatherItem)) :
    get_weather (some k)
        (fun _ => WeatherOutcome.ok { main := some { temp := none }, weather := w })
        location
      = Except.error (ToolErr.keyError "temp") := by
  rw [get_weather, if_neg]
  rintro (h | h)
  · exact Option.noConfusion h
  · exact hk (Option.some.inj h)

/-- Witness for claim C4 at the stubbed Paris response with no temperature
field. -/
theorem C4_missing_temp_raises_witness :
    ("apikey" : String) ≠ "" ∧
    get_weather (some "apikey")
        (fun _ => WeatherOutcome.ok
          { main := some { temp := none }, weather := none })
        "Paris"
      = Except.error (ToolErr.keyError "temp") :=
  ⟨by decide, C4_missing_temp_raises "apikey" "Paris" (by decide) none⟩

/-- Claim C9, counterexample.  The downloaded text is not the displayed
final answer text: it carries an "AI Travel Plan for ..." header prefix. -/
theorem C9_counterexample :
    plan_bytes "Paris" "Day 1: visit the Louvre."
      ≠ "Day 1: visit the Louvre." := by decide

/-- Claim C9, amended.  On success the download packages the final answer
text prefixed with a header line naming the destination (so the displayed
text is a suffix of the downloaded text, not equal to it), as a text/plain
file whose name is derived from the destination. -/
theorem C9_download_packaging (city plan_text : String) :
    plan_bytes city plan_text
      = "AI Travel Plan for " ++ city ++ "\n\n" ++ plan_text ∧
    plan_text.data <:+ (plan_bytes city plan_text).data ∧
    download_file_name city = city ++ "_travel_plan.txt" ∧
    download_mime = "text/plain" :=
  ⟨rfl, ⟨("AI Travel Plan for " ++ city ++ "\n\n").data, by
    simp [plan_bytes, String.data_append]⟩, rfl, rfl⟩

/-- Claim C2.  Modelled from the spec (the loop lives in the langchain
library): every run of the configured agent executor ends in Done or
Aborted; it performs at most `max_iterations` reasoning calls; from any
state whose elapsed time exceeds `max_execution_time` the loop aborts; and
an engine that never produces a Finish action always drives the loop to
Aborted. -/
theorem C2_agent_loop_bounded (registry : String → Option (String → String))
    (engine : Scratchpad → AgentAction) (callTime : Scratchpad → Nat) :
    ((∃ out, agent_executor registry engine callTime = LoopResult.done out) ∨
      (∃ r, agent_executor registry engine callTime = LoopResult.aborted r)) ∧
    engineCalls registry engine callTime agent_executor_config.max_iterations 0 []
      ≤ agent_executor_config.max_iterations ∧
    (∀ extra fuel pad, ∃ r,
      runLoop registry engine callTime fuel
          (agent_executor_config.max_execution_time + 1 + extra) pad
        = LoopResult.aborted r) ∧
    (∀ (nf : Scratchpad → (String × String) ⊕ String) fuel elapsed pad, ∃ r,
      runLoop registry
          (fun p => match nf p with
            | Sum.inl a => AgentAction.invoke a.1 a.2
            | Sum.inr raw => AgentAction.parseFailure raw)
          callTime fuel elapsed pad
        = LoopResult.aborted r) := by
  refine ⟨?_, engineCalls_le registry engine callTime _ 0 [], ?_, ?_⟩
  · cases h : agent_executor registry engine callTime with
    | done out => exact Or.inl ⟨out, rfl⟩
    | aborted r => exact Or.inr ⟨r, rfl⟩
  · intro extra fuel pad
    cases fuel with
    | zero => exact ⟨_, rfl⟩
    | succ n =>
      refine ⟨"Agent stopped: max execution time reached.", ?_⟩
      rw [runLoop, if_pos (by omega)]
  · intro nf fuel
    induction fuel with
    | zero => intro elapsed pad; exact ⟨_, rfl⟩
    | succ n ih =>
      intro elapsed pad
      rw [runLoop]
      split
      · exact ⟨_, rfl⟩
      · cases hnf : nf pad with
        | inl a => simpa only [hnf] using ih _ _
        | inr raw => simpa only [hnf] using ih _ _

/-- Claim C10.  `clear_inputs` sets the destination, interests and
time-of-year fields to the empty string, sets the duration field to 1, and
leaves every other piece of session state unchanged. -/
theorem C10_clear_inputs_effect_and_frame (α : Type) (s : SessionState α) :
    (clear_inputs s).city_input = "" ∧
    (clear_inputs s).duration_input = 1 ∧
    (clear_inputs s).interests_input = "" ∧
    (clear_inputs s).time_input = "" ∧
    (clear_inputs s).other = s.other :=
  ⟨rfl, rfl, rfl, rfl, rfl⟩

end TravelPlanner
